import Mathlib

/-!
Verification development for the syncthing-dashboard snapshot collection
engine (package `internal/collector`, with payload types from
`internal/syncthing` and the data model from `internal/model`).

Conventions of the embedding:
* Go `time.Time` values are UTC nanosecond counts modelled as `Int`;
  the Go zero time is modelled as `0` (`IsZero` becomes `= 0`).
* Go `time.Duration` (int64 nanoseconds) is `Int`; `Duration.Seconds()`
  and all float64 arithmetic are modelled over `ℚ`.
* Go maps that are only read through indexing are association lists
  (`List (String × _)`) read with `List.lookup`, with the Go zero value
  as the default for a missing key.
* The per-folder API calls `GetDBStatus` / `GetDBCompletion` appear as
  total functions `String → _` on the inputs record: every claim below
  concerns a cycle in which those calls succeeded (failures are modelled
  at the `refresh` level by the `Except.error` outcome).
* `parseSyncthingTime` (RFC3339 parsing) is abstracted as the input field
  `parseSyncthingTime : String → Option Int`; no claim depends on the
  concrete parse.
* `sort.Slice(x, less)` is modelled by a structural insertion sort with
  `le a b = ¬ less b a`; both agree on the permutation and sortedness
  properties (order among equal keys is unspecified by `sort.Slice`).
* `strings.TrimSpace` is modelled by `trimSpace` below, over the character
  list, so that it evaluates by kernel reduction.
-/

namespace SyncDash

/-- Go `strings.TrimSpace`: drop whitespace from both ends. Stated over the
character list so that it evaluates by kernel reduction. -/
def trimSpace (s : String) : String :=
  ⟨((s.data.dropWhile Char.isWhitespace).reverse.dropWhile Char.isWhitespace).reverse⟩

/-- Go byte-wise string comparison `a < b`, as lexicographic comparison of
the character lists (UTF-8 byte order agrees with codepoint order). -/
def charListLt : List Char → List Char → Bool
  | _, [] => false
  | [], _ :: _ => true
  | a :: as, b :: bs => if a < b then true else if b < a then false else charListLt as bs

def goStrLt (a b : String) : Bool := charListLt a.data b.data

def goStrLe (a b : String) : Bool := !(goStrLt b a)

/-- Go `sort.Slice(x, less)` with `le a b = ¬ less(b, a)`: modelled as a
structural insertion sort. `sort.Slice` specifies only that the result is a
permutation of the input sorted by `less` (ties in unspecified order). -/
def insertLe {α : Type} (le : α → α → Bool) (x : α) : List α → List α
  | [] => [x]
  | y :: ys => if le x y then x :: y :: ys else y :: insertLe le x ys

def sortSlice {α : Type} (le : α → α → Bool) (l : List α) : List α :=
  l.foldr (insertLe le) []

/-! ### Data model (`internal/model/model.go`) -/

structure Alert where
  severity : String
  code : String
  message : String
  subjectID : String
  deriving Repr, DecidableEq

structure DeviceStatus where
  name : String
  id : String
  version : String
  uptimeS : Int
  downloadBPS : ℚ
  uploadBPS : ℚ
  localFilesTotal : Int
  localDirsTotal : Int
  localBytesTotal : Int
  listenersOK : Int
  listenersTotal : Int
  discoveryOK : Int
  discoveryTotal : Int
  deriving Repr, DecidableEq

structure FolderStatus where
  id : String
  label : String
  path : String
  state : String
  globalFiles : Int
  localFiles : Int
  globalBytes : Int
  localBytes : Int
  needItems : Int
  needBytes : Int
  localChangesItems : Int
  completionPct : Option ℚ
  lastScanAt : Option Int
  deriving Repr, DecidableEq

structure RemoteDeviceStatus where
  id : String
  name : String
  connected : Bool
  address : String
  lastSeenAt : Option Int
  inBytesTotal : Int
  outBytesTotal : Int
  deriving Repr, DecidableEq

structure DashboardSnapshot where
  generatedAt : Int
  sourceOnline : Bool
  sourceError : Option String
  device : DeviceStatus
  folders : List FolderStatus
  remotes : List RemoteDeviceStatus
  alerts : List Alert
  stale : Bool
  deriving Repr, DecidableEq

def DeviceStatus.zero : DeviceStatus :=
  { name := "", id := "", version := "", uptimeS := 0, downloadBPS := 0, uploadBPS := 0
    localFilesTotal := 0, localDirsTotal := 0, localBytesTotal := 0
    listenersOK := 0, listenersTotal := 0, discoveryOK := 0, discoveryTotal := 0 }

def DashboardSnapshot.zero : DashboardSnapshot :=
  { generatedAt := 0, sourceOnline := false, sourceError := none, device := DeviceStatus.zero
    folders := [], remotes := [], alerts := [], stale := false }

/-! ### Upstream payload types (`internal/syncthing/client.go`) -/

structure ServiceStatus where
  error : Option String
  deriving Repr, DecidableEq

structure SystemStatusResponse where
  myID : String
  uptime : Int
  connectionServiceStatus : List (String × ServiceStatus)
  discoveryStatus : List (String × ServiceStatus)
  discoveryMethods : Int
  discoveryErrors : List (String × String)
  deriving Repr, DecidableEq

structure SystemVersionResponse where
  version : String
  os : String
  arch : String
  deriving Repr, DecidableEq

structure ConnectionTotals where
  inBytesTotal : Int
  outBytesTotal : Int
  bitsPerSecondIn : ℚ
  bitsPerSecondOut : ℚ
  deriving Repr, DecidableEq

structure ConnectionDetails where
  address : String
  connected : Bool
  inBytesTotal : Int
  outBytesTotal : Int
  deriving Repr, DecidableEq

def ConnectionDetails.zero : ConnectionDetails :=
  { address := "", connected := false, inBytesTotal := 0, outBytesTotal := 0 }

structure SystemConnectionsResponse where
  total : ConnectionTotals
  connections : List (String × ConnectionDetails)
  deriving Repr, DecidableEq

structure DeviceStats where
  lastSeen : String
  deriving Repr, DecidableEq

def DeviceStats.zero : DeviceStats := { lastSeen := "" }

structure FolderStats where
  lastScan : String
  deriving Repr, DecidableEq

structure ConfigDevice where
  deviceID : String
  name : String
  deriving Repr, DecidableEq

structure ConfigFolder where
  id : String
  label : String
  path : String
  paused : Bool
  deriving Repr, DecidableEq

structure ConfigResponse where
  devices : List ConfigDevice
  folders : List ConfigFolder
  deriving Repr, DecidableEq

structure DBStatusResponse where
  globalFiles : Int
  localFiles : Int
  localDirectories : Int
  globalBytes : Int
  localBytes : Int
  needFiles : Int
  needDirectories : Int
  needSymlinks : Int
  needDeletes : Int
  needBytes : Int
  needTotalItems : Int
  receiveOnlyTotalItems : Int
  receiveOnlyChangedBytes : Int
  state : String
  deriving Repr, DecidableEq

def DBStatusResponse.zero : DBStatusResponse :=
  { globalFiles := 0, localFiles := 0, localDirectories := 0, globalBytes := 0, localBytes := 0
    needFiles := 0, needDirectories := 0, needSymlinks := 0, needDeletes := 0, needBytes := 0
    needTotalItems := 0, receiveOnlyTotalItems := 0, receiveOnlyChangedBytes := 0, state := "" }

structure DBCompletionResponse where
  completion : ℚ
  needBytes : Int
  needItems : Int
  globalBytes : Int
  deriving Repr, DecidableEq

def DBCompletionResponse.zero : DBCompletionResponse :=
  { completion := 0, needBytes := 0, needItems := 0, globalBytes := 0 }

/-- All upstream responses of one successful poll cycle, as consumed by
`Collector.collect`. -/
structure CollectInputs where
  status : SystemStatusResponse
  version : SystemVersionResponse
  connections : SystemConnectionsResponse
  deviceStats : List (String × DeviceStats)
  folderStats : List (String × FolderStats)
  cfg : ConfigResponse
  dbStatus : String → DBStatusResponse
  completion : String → DBCompletionResponse
  parseSyncthingTime : String → Option Int

/-! ### Collector state (`internal/collector/collector.go`) -/

structure Collector where
  pollInterval : Int
  snapshot : DashboardSnapshot
  hasSnapshot : Bool
  lastGood : DashboardSnapshot
  hasLastGood : Bool
  lastRateAt : Int
  lastInTotal : Int
  lastOutTotal : Int
  deriving Repr, DecidableEq

/-- `New(client, pollInterval)`: every other field starts at its Go zero value. -/
def Collector.new (pollInterval : Int) : Collector :=
  { pollInterval := pollInterval, snapshot := DashboardSnapshot.zero, hasSnapshot := false
    lastGood := DashboardSnapshot.zero, hasLastGood := false
    lastRateAt := 0, lastInTotal := 0, lastOutTotal := 0 }

/-- `Collector.Snapshot()`, read at wall-clock time `now` (nanoseconds):
returns `none` when no snapshot was ever published, otherwise a copy of the
current snapshot with the staleness re-derived at read time. -/
def Collector.snapshotRead (c : Collector) (now : Int) : Option DashboardSnapshot :=
  if c.hasSnapshot = false then
    none
  else
    let out := c.snapshot
    let out := if out.generatedAt ≠ 0 ∧ now - out.generatedAt > 2 * c.pollInterval then
        { out with stale := true } else out
    let out := if out.sourceOnline = false then { out with stale := true } else out
    some out

/-- `Collector.currentRates`: returns the collector with its private rate
counters possibly advanced, plus the `(downloadBPS, uploadBPS)` pair. -/
def Collector.currentRates (c : Collector) (total : ConnectionTotals) (now : Int) :
    Collector × ℚ × ℚ :=
  if total.bitsPerSecondIn > 0 ∨ total.bitsPerSecondOut > 0 then
    (c, total.bitsPerSecondIn / 8, total.bitsPerSecondOut / 8)
  else if c.lastRateAt = 0 then
    ({ c with
        lastRateAt := now
        lastInTotal := total.inBytesTotal
        lastOutTotal := total.outBytesTotal },
      total.bitsPerSecondIn / 8, total.bitsPerSecondOut / 8)
  else
    let elapsed : ℚ := ((now - c.lastRateAt : Int) : ℚ) / 1000000000
    if elapsed ≤ 0 then
      (c, total.bitsPerSecondIn / 8, total.bitsPerSecondOut / 8)
    else
      let inDelta : Int := total.inBytesTotal - c.lastInTotal
      let outDelta : Int := total.outBytesTotal - c.lastOutTotal
      let c' := { c with
          lastRateAt := now
          lastInTotal := total.inBytesTotal
          lastOutTotal := total.outBytesTotal }
      if inDelta < 0 ∨ outDelta < 0 then
        (c', total.bitsPerSecondIn / 8, total.bitsPerSecondOut / 8)
      else
        (c', (inDelta : ℚ) / elapsed, (outDelta : ℚ) / elapsed)

def serviceHealthCount (statusByKey : List (String × ServiceStatus)) : Int × Int :=
  let total : Int := statusByKey.length
  if total = 0 then (0, 0)
  else
    let ok : Int := statusByKey.countP fun kv =>
      match kv.2.error with
      | none => true
      | some e => trimSpace e = ""
    (ok, total)

def discoveryHealthCount (status : SystemStatusResponse) : Int × Int :=
  let p := serviceHealthCount status.discoveryStatus
  if p.2 > 0 then p
  else if status.discoveryMethods ≤ 0 then (0, 0)
  else
    let errorCount : Int := status.discoveryErrors.length
    let errorCount := if errorCount > status.discoveryMethods then status.discoveryMethods
      else errorCount
    (status.discoveryMethods - errorCount, status.discoveryMethods)

/-- Body of the per-folder loop of `Collector.collect`. -/
def buildFolder (inputs : CollectInputs) (folder : ConfigFolder) : FolderStatus :=
  let dbStatus := inputs.dbStatus folder.id
  let completion := inputs.completion folder.id
  let state := trimSpace dbStatus.state
  let state := if state = "" then "unknown" else state
  let state := if folder.paused then "paused" else state
  let needItems := if completion.needItems < 0 then 0 else completion.needItems
  let needBytes := if completion.needBytes < 0 then 0 else completion.needBytes
  let globalBytes := if completion.globalBytes > dbStatus.globalBytes then completion.globalBytes
    else dbStatus.globalBytes
  let completionPct : Option ℚ :=
    if 0 ≤ completion.completion ∧ completion.completion ≤ 100 then some completion.completion
    else none
  let lastScan : Option Int :=
    (inputs.folderStats.lookup folder.id).bind fun fs => inputs.parseSyncthingTime fs.lastScan
  let label := if trimSpace folder.label = "" then folder.id else folder.label
  { id := folder.id, label := label, path := folder.path, state := state
    globalFiles := dbStatus.globalFiles, localFiles := dbStatus.localFiles
    globalBytes := globalBytes, localBytes := dbStatus.localBytes
    needItems := needItems, needBytes := needBytes
    localChangesItems := dbStatus.receiveOnlyTotalItems
    completionPct := completionPct, lastScanAt := lastScan }

/-- Body of the per-remote-device loop of `Collector.collect`. -/
def buildRemote (inputs : CollectInputs) (deviceCfg : ConfigDevice) : RemoteDeviceStatus :=
  let conn := (inputs.connections.connections.lookup deviceCfg.deviceID).getD
    ConnectionDetails.zero
  let deviceStat := (inputs.deviceStats.lookup deviceCfg.deviceID).getD DeviceStats.zero
  let name := if trimSpace deviceCfg.name = "" then deviceCfg.deviceID else deviceCfg.name
  { id := deviceCfg.deviceID, name := name, connected := conn.connected
    address := conn.address
    lastSeenAt := inputs.parseSyncthingTime deviceStat.lastSeen
    inBytesTotal := conn.inBytesTotal, outBytesTotal := conn.outBytesTotal }

def remoteDisconnectedAlert (remote : RemoteDeviceStatus) : Alert :=
  { severity := "critical", code := "REMOTE_DISCONNECTED"
    message := "Remote device " ++ remote.name ++ " is disconnected", subjectID := remote.id }

def folderErrorAlert (folder : FolderStatus) : Alert :=
  { severity := "critical", code := "FOLDER_ERROR"
    message := "Folder " ++ folder.label ++ " reports error state", subjectID := folder.id }

def folderOutOfSyncAlert (folder : FolderStatus) : Alert :=
  { severity := "warn", code := "FOLDER_OUT_OF_SYNC"
    message := "Folder " ++ folder.label ++ " has pending sync items", subjectID := folder.id }

/-- `deriveAlerts`, kept in the source's two-loop accumulator shape. -/
def deriveAlerts (remotes : List RemoteDeviceStatus) (folders : List FolderStatus) :
    List Alert :=
  let alerts := remotes.foldl
    (fun acc remote =>
      if remote.connected then acc else acc ++ [remoteDisconnectedAlert remote])
    []
  folders.foldl
    (fun acc folder =>
      if folder.state = "error" then acc ++ [folderErrorAlert folder]
      else if folder.needItems > 0 ∨ folder.needBytes > 0 then
        acc ++ [folderOutOfSyncAlert folder]
      else acc)
    alerts

/-- `Collector.collect` on a cycle in which every upstream call succeeded:
returns the collector (rate counters possibly advanced by `currentRates`)
and the normalized snapshot. -/
def Collector.collect (c : Collector) (inputs : CollectInputs) (now : Int) :
    Collector × DashboardSnapshot :=
  let status := inputs.status
  let cfg := inputs.cfg
  let localDeviceID := status.myID
  let localDeviceName :=
    match cfg.devices.find? (fun d => d.deviceID == localDeviceID) with
    | some d => if trimSpace d.name ≠ "" then d.name else localDeviceID
    | none => localDeviceID
  let r := c.currentRates inputs.connections.total now
  let c' := r.1
  let downloadBPS := r.2.1
  let uploadBPS := r.2.2
  let folders := sortSlice (fun a b => goStrLe a.label b.label)
    (cfg.folders.map (buildFolder inputs))
  let remotes := sortSlice (fun a b => goStrLe a.name b.name)
    ((cfg.devices.filter fun d => d.deviceID != localDeviceID).map (buildRemote inputs))
  let folderIDs := (cfg.folders.map (fun f => f.id)).dedup
  let localFilesTotal := (folderIDs.map fun fid => (inputs.dbStatus fid).localFiles).sum
  let localDirsTotal := (folderIDs.map fun fid => (inputs.dbStatus fid).localDirectories).sum
  let localBytesTotal := (folderIDs.map fun fid => (inputs.dbStatus fid).localBytes).sum
  let listeners := serviceHealthCount status.connectionServiceStatus
  let discovery := discoveryHealthCount status
  let device : DeviceStatus :=
    { name := localDeviceName, id := localDeviceID
      version := trimSpace (String.intercalate " "
        [inputs.version.version, inputs.version.os, inputs.version.arch])
      uptimeS := status.uptime, downloadBPS := downloadBPS, uploadBPS := uploadBPS
      localFilesTotal := localFilesTotal, localDirsTotal := localDirsTotal
      localBytesTotal := localBytesTotal
      listenersOK := listeners.1, listenersTotal := listeners.2
      discoveryOK := discovery.1, discoveryTotal := discovery.2 }
  let alerts := deriveAlerts remotes folders
  (c',
    { generatedAt := now, sourceOnline := true, sourceError := none
      device := device, folders := folders, remotes := remotes, alerts := alerts
      stale := false })

def sourceUnreachableAlert : Alert :=
  { severity := "critical", code := "SOURCE_UNREACHABLE"
    message := "Syncthing API is unreachable", subjectID := "syncthing" }

/-- `Collector.refresh` at wall-clock time `now`: `outcome` is the result of
the poll cycle, either all upstream payloads or the first failure's message.
On failure the Go `collect` may already have advanced the private rate
counters before failing; no snapshot-related field is affected by that, and
the failure branch here leaves the counters as given. -/
def Collector.refresh (c : Collector) (now : Int)
    (outcome : Except String CollectInputs) : Collector :=
  match outcome with
  | Except.ok inputs =>
    let r := c.collect inputs now
    let c' := r.1
    let snapshot := { r.2 with
        generatedAt := now
        sourceOnline := true
        sourceError := none
        stale := false }
    { c' with
      snapshot := snapshot
      lastGood := snapshot
      hasSnapshot := true
      hasLastGood := true }
  | Except.error err =>
    let errText := err
    if c.hasLastGood then
      let fallback := { c.lastGood with
          sourceOnline := false
          sourceError := some errText
          stale := true
          alerts := sourceUnreachableAlert :: c.lastGood.alerts }
      { c with snapshot := fallback, hasSnapshot := true }
    else
      { c with
        snapshot := { DashboardSnapshot.zero with
          generatedAt := now
          sourceOnline := false
          sourceError := some errText
          alerts := [sourceUnreachableAlert]
          stale := true }
        hasSnapshot := true }

/-- Repeated failed polls, oldest first; each pair is (poll time, error text). -/
def Collector.applyFailures (c : Collector) (fails : List (Int × String)) : Collector :=
  fails.foldl (fun acc p => acc.refresh p.1 (Except.error p.2)) c

/-- The alert derived from one folder (if any), as the spec words it:
`FOLDER_ERROR` for a folder in error state, else `FOLDER_OUT_OF_SYNC` for a
folder with outstanding need, else nothing. -/
def folderAlertOf (folder : FolderStatus) : Option Alert :=
  if folder.state = "error" then some (folderErrorAlert folder)
  else if folder.needItems > 0 ∨ folder.needBytes > 0 then some (folderOutOfSyncAlert folder)
  else none

/-- The degraded snapshot rebuilt from a last-known-good snapshot `g` with
failure cause `e`. -/
def degradedFrom (g : DashboardSnapshot) (e : String) : DashboardSnapshot :=
  { g with
    sourceOnline := false
    sourceError := some e
    stale := true
    alerts := sourceUnreachableAlert :: g.alerts }

/-! ### Concrete sample data for witnesses and counterexamples -/

/-- A collector that already holds a previous rate sample
(taken at t = 1s, cumulative totals 1000 bytes in / 2000 bytes out). -/
def rateCollector₀ : Collector :=
  { Collector.new 5000000000 with
    lastRateAt := 1000000000
    lastInTotal := 1000
    lastOutTotal := 2000 }

/-- Totals carrying a positive upstream instantaneous rate. -/
def totalsInstant : ConnectionTotals :=
  { inBytesTotal := 1600, outBytesTotal := 2600, bitsPerSecondIn := 8, bitsPerSecondOut := 0 }

/-- Totals with no instantaneous rate: 600 new bytes in each direction
relative to `rateCollector₀`. -/
def totalsDelta600 : ConnectionTotals :=
  { inBytesTotal := 1600, outBytesTotal := 2600, bitsPerSecondIn := 0, bitsPerSecondOut := 0 }

/-- Totals with a negative (hence nonzero) upstream instantaneous rate. -/
def totalsNegRate : ConnectionTotals :=
  { inBytesTotal := 1800, outBytesTotal := 2600, bitsPerSecondIn := -8, bitsPerSecondOut := 0 }

/-- The spec's folder scenario: configured paused, DB state `syncing`,
DB-status needBytes 2048 / globalBytes 4096, completion endpoint
completion 8.1, needBytes 3072, needItems 12. -/
def sampleFolderCfg : ConfigFolder :=
  { id := "app", label := "app", path := "/mnt/vault/app", paused := true }

def sampleInputs : CollectInputs :=
  { status := { myID := "LOCAL-1"
                uptime := 120
                connectionServiceStatus := []
                discoveryStatus := []
                discoveryMethods := 0
                discoveryErrors := [] }
    version := { version := "v2.0.1", os := "linux", arch := "amd64" }
    connections := { total := { inBytesTotal := 0
                                outBytesTotal := 0
                                bitsPerSecondIn := 0
                                bitsPerSecondOut := 0 }
                     connections := [] }
    deviceStats := []
    folderStats := []
    cfg := { devices := [], folders := [sampleFolderCfg] }
    dbStatus := fun _ => { DBStatusResponse.zero with
      state := "syncing"
      needBytes := 2048
      globalBytes := 4096 }
    completion := fun _ => { completion := (81 : ℚ) / 10
                             needBytes := 3072
                             needItems := 12
                             globalBytes := 4096 }
    parseSyncthingTime := fun _ => none }

/-- Two config folders sharing the display label `x`. -/
def cfgFolderA : ConfigFolder := { id := "a", label := "x", path := "/a", paused := false }

def cfgFolderB : ConfigFolder := { id := "b", label := "x", path := "/b", paused := false }

def dupLabelInputs₁ : CollectInputs :=
  { sampleInputs with cfg := { devices := [], folders := [cfgFolderA, cfgFolderB] } }

def dupLabelInputs₂ : CollectInputs :=
  { sampleInputs with cfg := { devices := [], folders := [cfgFolderB, cfgFolderA] } }

/-- Config folders with distinct labels, for the determinism witness. -/
def cfgFolderY : ConfigFolder := { id := "a", label := "y", path := "/a", paused := false }

def cfgFolderX : ConfigFolder := { id := "b", label := "x", path := "/b", paused := false }

def distinctInputs₁ : CollectInputs :=
  { sampleInputs with cfg := { devices := [], folders := [cfgFolderY, cfgFolderX] } }

/-! ### Supporting lemmas: the Go string order -/

theorem charListLt_iff_lex : ∀ as bs : List Char,
    charListLt as bs = true ↔ List.Lex (· < ·) as bs := by
  intro as
  induction as with
  | nil =>
    intro bs
    cases bs with
    | nil =>
      simp only [charListLt, Bool.false_eq_true, false_iff]
      intro h
      cases h
    | cons b bs =>
      simp only [charListLt, true_iff]
      exact List.Lex.nil
  | cons a as ih =>
    intro bs
    cases bs with
    | nil =>
      simp only [charListLt, Bool.false_eq_true, false_iff]
      intro h
      cases h
    | cons b bs =>
      simp only [charListLt]
      constructor
      · intro h
        split at h
        · exact List.Lex.rel (by assumption)
        · split at h
          · cases h
          · have hab : a = b :=
              le_antisymm (le_of_not_lt (by assumption)) (le_of_not_lt (by assumption))
            subst hab
            exact List.Lex.cons ((ih bs).mp h)
      · intro h
        cases h with
        | cons h' =>
          have hirr : ¬ a < a := lt_irrefl a
          simp only [if_neg hirr]
          exact (ih bs).mpr h'
        | rel h' =>
          simp [h']

theorem goStrLt_iff (a b : String) : goStrLt a b = true ↔ a < b := by
  rw [goStrLt, charListLt_iff_lex]
  exact (String.lt_iff_toList_lt).symm

theorem goStrLe_iff (a b : String) : goStrLe a b = true ↔ a ≤ b := by
  rw [goStrLe, Bool.not_eq_true', Bool.eq_false_iff, Ne, goStrLt_iff]
  exact not_lt

/-! ### Supporting lemmas: the sort -/

theorem insertLe_perm {α : Type} (le : α → α → Bool) (x : α) :
    ∀ l : List α, (insertLe le x l).Perm (x :: l) := by
  intro l
  induction l with
  | nil => exact List.Perm.refl _
  | cons y ys ih =>
    simp only [insertLe]
    split
    · exact List.Perm.refl _
    · exact (List.Perm.cons y ih).trans (List.Perm.swap x y ys)

theorem sortSlice_perm {α : Type} (le : α → α → Bool) (l : List α) :
    (sortSlice le l).Perm l := by
  induction l with
  | nil => exact List.Perm.refl _
  | cons x xs ih => exact (insertLe_perm le x (sortSlice le xs)).trans (List.Perm.cons x ih)

theorem sortSlice_mem {α : Type} (le : α → α → Bool) (l : List α) (a : α) :
    a ∈ sortSlice le l ↔ a ∈ l :=
  (sortSlice_perm le l).mem_iff

theorem insertLe_pairwise {α : Type} (le : α → α → Bool)
    (htot : ∀ a b, le a b = true ∨ le b a = true)
    (htrans : ∀ a b c, le a b = true → le b c = true → le a c = true)
    (x : α) : ∀ l : List α, l.Pairwise (fun a b => le a b = true) →
      (insertLe le x l).Pairwise (fun a b => le a b = true) := by
  intro l
  induction l with
  | nil => simp [insertLe]
  | cons y ys ih =>
    intro hp
    rcases List.pairwise_cons.mp hp with ⟨hy, hys⟩
    simp only [insertLe]
    split
    · rename_i hxy
      refine List.pairwise_cons.mpr ⟨?_, hp⟩
      intro z hz
      rcases List.mem_cons.mp hz with rfl | hzys
      · exact hxy
      · exact htrans x y z hxy (hy z hzys)
    · rename_i hxy
      have hyx : le y x = true := (htot x y).resolve_left hxy
      refine List.pairwise_cons.mpr ⟨?_, ih hys⟩
      intro z hz
      rcases List.mem_cons.mp ((insertLe_perm le x ys).mem_iff.mp hz) with rfl | hzys
      · exact hyx
      · exact hy z hzys

theorem sortSlice_pairwise {α : Type} (le : α → α → Bool)
    (htot : ∀ a b, le a b = true ∨ le b a = true)
    (htrans : ∀ a b c, le a b = true → le b c = true → le a c = true)
    (l : List α) : (sortSlice le l).Pairwise (fun a b => le a b = true) := by
  induction l with
  | nil => simp [sortSlice]
  | cons x xs ih => exact insertLe_pairwise le htot htrans x (sortSlice le xs) ih

theorem eq_of_perm_of_sorted_key {α β : Type} [LinearOrder β] (key : α → β) :
    ∀ l₁ l₂ : List α, l₁.Perm l₂ → l₁.Pairwise (fun a b => key a ≤ key b) →
      l₂.Pairwise (fun a b => key a ≤ key b) → (l₁.map key).Nodup → l₁ = l₂ := by
  intro l₁
  induction l₁ with
  | nil =>
    intro l₂ hp _ _ _
    exact (List.Perm.eq_nil hp.symm).symm
  | cons a t ih =>
    intro l₂ hp hs₁ hs₂ hnd
    cases l₂ with
    | nil => cases List.Perm.eq_nil hp
    | cons b u =>
      rcases List.pairwise_cons.mp hs₁ with ⟨ha, hts⟩
      rcases List.pairwise_cons.mp hs₂ with ⟨hb, hus⟩
      rw [List.map_cons] at hnd
      rcases List.nodup_cons.mp hnd with ⟨hka, hknd⟩
      have hab : a = b := by
        by_contra hne
        have hau : a ∈ u := by
          rcases List.mem_cons.mp (hp.mem_iff.mp (List.mem_cons_self a t)) with h | h
          · exact absurd h hne
          · exact h
        have hbt : b ∈ t := by
          rcases List.mem_cons.mp (hp.symm.mem_iff.mp (List.mem_cons_self b u)) with h | h
          · exact absurd h.symm hne
          · exact h
        have hkab : key a = key b := le_antisymm (ha b hbt) (hb a hau)
        exact hka (by
          rw [hkab]
          exact List.mem_map_of_mem key hbt)
      subst hab
      rw [ih u hp.cons_inv hts hus hknd]

/-! ### Supporting lemmas: alert derivation -/

theorem remotesLoop_eq : ∀ (l : List RemoteDeviceStatus) (acc : List Alert),
    l.foldl (fun acc remote =>
        if remote.connected then acc else acc ++ [remoteDisconnectedAlert remote]) acc
      = acc ++ (l.filter (fun r => !r.connected)).map remoteDisconnectedAlert := by
  intro l
  induction l with
  | nil => simp
  | cons r rs ih =>
    intro acc
    cases hr : r.connected <;>
      simp [List.foldl_cons, hr, ih, List.filter_cons]

theorem foldersLoop_eq : ∀ (l : List FolderStatus) (acc : List Alert),
    l.foldl (fun acc folder =>
        if folder.state = "error" then acc ++ [folderErrorAlert folder]
        else if folder.needItems > 0 ∨ folder.needBytes > 0 then
          acc ++ [folderOutOfSyncAlert folder]
        else acc) acc
      = acc ++ l.filterMap folderAlertOf := by
  intro l
  induction l with
  | nil => simp
  | cons f fs ih =>
    intro acc
    by_cases he : f.state = "error"
    · simp [List.foldl_cons, he, ih, List.filterMap_cons, folderAlertOf]
    · by_cases hn : f.needItems > 0 ∨ f.needBytes > 0
      · simp [List.foldl_cons, he, hn, ih, List.filterMap_cons, folderAlertOf]
      · simp [List.foldl_cons, he, hn, ih, List.filterMap_cons, folderAlertOf]

theorem deriveAlerts_eq (remotes : List RemoteDeviceStatus) (folders : List FolderStatus) :
    deriveAlerts remotes folders =
      (remotes.filter (fun r => !r.connected)).map remoteDisconnectedAlert ++
        folders.filterMap folderAlertOf := by
  rw [deriveAlerts, remotesLoop_eq, foldersLoop_eq]
  simp

/-! ### Supporting lemmas: the failure path -/

theorem refresh_error_of_hasLastGood (c : Collector) (t : Int) (e : String)
    (h : c.hasLastGood = true) :
    c.refresh t (Except.error e) =
      { c with snapshot := degradedFrom c.lastGood e, hasSnapshot := true } := by
  simp [Collector.refresh, h, degradedFrom]

theorem applyFailures_spec :
    ∀ (fails : List (Int × String)) (c : Collector), c.hasLastGood = true →
      (c.applyFailures fails).hasLastGood = true ∧
      (c.applyFailures fails).lastGood = c.lastGood ∧
      (fails = [] → c.applyFailures fails = c) ∧
      (fails ≠ [] → ∃ e : String,
        (c.applyFailures fails).snapshot = degradedFrom c.lastGood e ∧
        (c.applyFailures fails).hasSnapshot = true) := by
  intro fails
  induction fails with
  | nil =>
    intro c h
    exact ⟨h, rfl, fun _ => rfl, fun hne => absurd rfl hne⟩
  | cons p ps ih =>
    intro c h
    have hstep : c.applyFailures (p :: ps) =
        (c.refresh p.1 (Except.error p.2)).applyFailures ps := rfl
    have hc' := refresh_error_of_hasLastGood c p.1 p.2 h
    set c' := c.refresh p.1 (Except.error p.2) with hc'def
    have hlg : c'.hasLastGood = true := by rw [hc']; exact h
    have hlgood : c'.lastGood = c.lastGood := by rw [hc']
    rcases ih c' hlg with ⟨h1, h2, h3, h4⟩
    refine ⟨by rw [hstep]; exact h1, by rw [hstep, h2, hlgood],
      fun hne => absurd hne (List.cons_ne_nil p ps), ?_⟩
    intro _
    cases ps with
    | nil =>
      refine ⟨p.2, ?_, ?_⟩
      · rw [hstep]
        have : c'.applyFailures [] = c' := rfl
        rw [this, hc']
      · rw [hstep]
        have : c'.applyFailures [] = c' := rfl
        rw [this, hc']
    | cons q qs =>
      rcases h4 (by simp) with ⟨e, he, hh⟩
      exact ⟨e, by rw [hstep, ← hlgood]; exact he, by rw [hstep]; exact hh⟩


/-! ### Supporting lemmas: reads and refreshes -/

theorem currentRates_fst_pollInterval (c : Collector) (total : ConnectionTotals) (now : Int) :
    (c.currentRates total now).1.pollInterval = c.pollInterval := by
  simp only [Collector.currentRates]
  split_ifs <;> rfl

theorem refresh_pollInterval (c : Collector) (now : Int)
    (outcome : Except String CollectInputs) :
    (c.refresh now outcome).pollInterval = c.pollInterval := by
  cases outcome with
  | ok inputs =>
    show (c.collect inputs now).1.pollInterval = c.pollInterval
    exact currentRates_fst_pollInterval c inputs.connections.total now
  | error e =>
    rw [Collector.refresh]
    split <;> rfl

/-- Read semantics of `Snapshot()`: the returned snapshot differs from the
stored one only in the re-derived `stale` flag. -/
theorem snapshotRead_spec (c : Collector) (tRead : Int) (h : c.hasSnapshot = true) :
    ∃ s, c.snapshotRead tRead = some s ∧
      s.generatedAt = c.snapshot.generatedAt ∧
      s.sourceOnline = c.snapshot.sourceOnline ∧
      s.sourceError = c.snapshot.sourceError ∧
      s.device = c.snapshot.device ∧
      s.folders = c.snapshot.folders ∧
      s.remotes = c.snapshot.remotes ∧
      s.alerts = c.snapshot.alerts ∧
      (s.stale = true ↔
        (c.snapshot.stale = true ∨
          (c.snapshot.generatedAt ≠ 0 ∧ tRead - c.snapshot.generatedAt > 2 * c.pollInterval) ∨
          c.snapshot.sourceOnline = false)) := by
  rw [Collector.snapshotRead]
  simp only [h, Bool.true_eq_false, if_false]
  split
  · rename_i hage
    refine ⟨_, rfl, ?_⟩
    split
    · rename_i hoff
      simp [hage, hoff]
    · rename_i hoff
      simp [hage, hoff]
  · rename_i hage
    split
    · rename_i hoff
      refine ⟨_, rfl, ?_⟩
      simp [hage, hoff]
    · rename_i hoff
      refine ⟨_, rfl, ?_⟩
      simp only [Bool.not_eq_false] at hoff
      simp [hage, hoff]

/-! ### Supporting lemmas: shape of `collect`'s outputs -/

theorem collect_folders_eq (c : Collector) (inputs : CollectInputs) (now : Int) :
    (c.collect inputs now).2.folders
      = sortSlice (fun a b => goStrLe a.label b.label)
          (inputs.cfg.folders.map (buildFolder inputs)) := rfl

theorem collect_remotes_eq (c : Collector) (inputs : CollectInputs) (now : Int) :
    (c.collect inputs now).2.remotes
      = sortSlice (fun a b => goStrLe a.name b.name)
          ((inputs.cfg.devices.filter fun d => d.deviceID != inputs.status.myID).map
            (buildRemote inputs)) := rfl

theorem collect_folders_cfg (c' : Collector) (inputs : CollectInputs) (now' : Int)
    (devices₂ : List ConfigDevice) (folders₂ : List ConfigFolder) :
    (c'.collect { inputs with cfg := { devices := devices₂, folders := folders₂ } } now').2.folders
      = sortSlice (fun a b => goStrLe a.label b.label)
          (folders₂.map (buildFolder inputs)) := rfl

theorem collect_remotes_cfg (c' : Collector) (inputs : CollectInputs) (now' : Int)
    (devices₂ : List ConfigDevice) (folders₂ : List ConfigFolder) :
    (c'.collect { inputs with cfg := { devices := devices₂, folders := folders₂ } } now').2.remotes
      = sortSlice (fun a b => goStrLe a.name b.name)
          ((devices₂.filter fun d => d.deviceID != inputs.status.myID).map
            (buildRemote inputs)) := rfl

theorem buildFolder_needItems (inputs : CollectInputs) (cf : ConfigFolder) :
    (buildFolder inputs cf).needItems = max (inputs.completion cf.id).needItems 0 := by
  simp only [buildFolder]
  rcases lt_or_ge (inputs.completion cf.id).needItems 0 with h | h
  · rw [if_pos h]
    omega
  · rw [if_neg (not_lt.mpr h)]
    omega

theorem buildFolder_needBytes (inputs : CollectInputs) (cf : ConfigFolder) :
    (buildFolder inputs cf).needBytes = max (inputs.completion cf.id).needBytes 0 := by
  simp only [buildFolder]
  rcases lt_or_ge (inputs.completion cf.id).needBytes 0 with h | h
  · rw [if_pos h]
    omega
  · rw [if_neg (not_lt.mpr h)]
    omega

theorem buildFolder_globalBytes (inputs : CollectInputs) (cf : ConfigFolder) :
    (buildFolder inputs cf).globalBytes
      = max (inputs.dbStatus cf.id).globalBytes (inputs.completion cf.id).globalBytes := by
  simp only [buildFolder]
  rcases le_or_lt (inputs.completion cf.id).globalBytes (inputs.dbStatus cf.id).globalBytes
    with h | h
  · rw [if_neg (not_lt.mpr h)]
    omega
  · rw [if_pos h]
    omega

theorem mem_collect_folders {c : Collector} {inputs : CollectInputs} {now : Int}
    {f : FolderStatus} (hf : f ∈ (c.collect inputs now).2.folders) :
    ∃ cf, cf ∈ inputs.cfg.folders ∧ f = buildFolder inputs cf := by
  have hf' : f ∈ sortSlice (fun a b => goStrLe a.label b.label)
      (inputs.cfg.folders.map (buildFolder inputs)) := hf
  rcases List.mem_map.mp ((sortSlice_mem _ _ _).mp hf') with ⟨cf, hcf, heq⟩
  exact ⟨cf, hcf, heq.symm⟩

theorem goStrLe_total (a b : String) : goStrLe a b = true ∨ goStrLe b a = true := by
  rcases le_total a b with h | h
  · exact Or.inl ((goStrLe_iff a b).mpr h)
  · exact Or.inr ((goStrLe_iff b a).mpr h)

theorem goStrLe_trans (a b c : String) (h₁ : goStrLe a b = true) (h₂ : goStrLe b c = true) :
    goStrLe a c = true :=
  (goStrLe_iff a c).mpr (le_trans ((goStrLe_iff a b).mp h₁) ((goStrLe_iff b c).mp h₂))

theorem folderAlertOf_code (f : FolderStatus) (a : Alert) (h : folderAlertOf f = some a) :
    a.code = "FOLDER_ERROR" ∨ a.code = "FOLDER_OUT_OF_SYNC" := by
  rw [folderAlertOf] at h
  split_ifs at h
  · cases h
    exact Or.inl rfl
  · cases h
    exact Or.inr rfl

theorem deriveAlerts_no_unreachable (remotes : List RemoteDeviceStatus)
    (folders : List FolderStatus) :
    (deriveAlerts remotes folders).countP (fun a => a.code == "SOURCE_UNREACHABLE") = 0 := by
  rw [deriveAlerts_eq, List.countP_eq_zero]
  intro a ha
  rcases List.mem_append.mp ha with h | h
  · rcases List.mem_map.mp h with ⟨r, hr, rfl⟩
    have hc : (remoteDisconnectedAlert r).code = "REMOTE_DISCONNECTED" := rfl
    rw [hc]
    decide
  · rcases List.mem_filterMap.mp h with ⟨f, hf, hfa⟩
    rcases folderAlertOf_code f a hfa with h' | h' <;> · rw [h']; decide


/-! ### The claims -/

/-- C1: for a collector holding a last-known-good snapshot (established here
by a successful poll at `t₁`), a failed poll republishes a copy of that
snapshot: the next read returns `source_online = false`, `source_error` set
to the failure cause, `stale = true`, the last good snapshot's device,
folders and remotes, a critical `SOURCE_UNREACHABLE` alert prepended as the
first alert, and `generated_at` equal to the last successful collection's
timestamp `t₁`. -/
theorem c1_failure_falls_back_to_last_good (c₀ : Collector) (inputs : CollectInputs)
    (t₁ t₂ tRead : Int) (e : String) :
    ∃ s, ((c₀.refresh t₁ (Except.ok inputs)).refresh t₂ (Except.error e)).snapshotRead tRead
        = some s ∧
      s.sourceOnline = false ∧
      s.sourceError = some e ∧
      s.stale = true ∧
      s.device = (c₀.refresh t₁ (Except.ok inputs)).lastGood.device ∧
      s.folders = (c₀.refresh t₁ (Except.ok inputs)).lastGood.folders ∧
      s.remotes = (c₀.refresh t₁ (Except.ok inputs)).lastGood.remotes ∧
      s.alerts = sourceUnreachableAlert :: (c₀.refresh t₁ (Except.ok inputs)).lastGood.alerts ∧
      s.alerts.head? = some sourceUnreachableAlert ∧
      sourceUnreachableAlert.severity = "critical" ∧
      sourceUnreachableAlert.code = "SOURCE_UNREACHABLE" ∧
      s.generatedAt = t₁ := by
  set c₁ := c₀.refresh t₁ (Except.ok inputs) with hc₁
  have hlg : c₁.hasLastGood = true := rfl
  have hgen : c₁.lastGood.generatedAt = t₁ := rfl
  have hmain := refresh_error_of_hasLastGood c₁ t₂ e hlg
  rw [hmain, Collector.snapshotRead]
  simp only [degradedFrom]
  split
  · simp_all [sourceUnreachableAlert]
  · split
    · simp_all [sourceUnreachableAlert]
    · simp_all [sourceUnreachableAlert]

theorem c1_witness :
    ∃ s, (((Collector.new 5).refresh 100 (Except.ok sampleInputs)).refresh 200
        (Except.error "boom")).snapshotRead 300 = some s ∧
      s.sourceOnline = false ∧
      s.sourceError = some "boom" ∧
      s.stale = true ∧
      s.device = ((Collector.new 5).refresh 100 (Except.ok sampleInputs)).lastGood.device ∧
      s.folders = ((Collector.new 5).refresh 100 (Except.ok sampleInputs)).lastGood.folders ∧
      s.remotes = ((Collector.new 5).refresh 100 (Except.ok sampleInputs)).lastGood.remotes ∧
      s.alerts = sourceUnreachableAlert ::
        ((Collector.new 5).refresh 100 (Except.ok sampleInputs)).lastGood.alerts ∧
      s.alerts.head? = some sourceUnreachableAlert ∧
      sourceUnreachableAlert.severity = "critical" ∧
      sourceUnreachableAlert.code = "SOURCE_UNREACHABLE" ∧
      s.generatedAt = 100 :=
  c1_failure_falls_back_to_last_good (Collector.new 5) sampleInputs 100 200 300 "boom"

/-- C2: every read recomputes staleness: for any published snapshot the read
result has `stale = true` exactly when its age at read time exceeds twice
the poll interval or `source_online` is false; in particular a healthy
publication reads back stale once its age exceeds twice the poll
interval. -/
theorem c2_stale_recomputed_at_read (c₀ : Collector) (now tRead : Int)
    (outcome : Except String CollectInputs) (hNow : now ≠ 0) :
    ∃ s, (c₀.refresh now outcome).snapshotRead tRead = some s ∧
      (s.stale = true ↔
        (tRead - s.generatedAt > 2 * c₀.pollInterval ∨ s.sourceOnline = false)) ∧
      (∀ inputs, outcome = Except.ok inputs → tRead - now > 2 * c₀.pollInterval →
        s.stale = true) := by
  have hpi : (c₀.refresh now outcome).pollInterval = c₀.pollInterval :=
    refresh_pollInterval c₀ now outcome
  cases outcome with
  | ok inputs =>
    have hhas : (c₀.refresh now (Except.ok inputs)).hasSnapshot = true := rfl
    rcases snapshotRead_spec _ tRead hhas with
      ⟨s, hread, hgen, hon, herr, hdev, hfld, hrem, halt, hstale⟩
    have hgen' : s.generatedAt = now := hgen
    have hon' : s.sourceOnline = true := hon
    have hst : (c₀.refresh now (Except.ok inputs)).snapshot.stale = false := rfl
    have hsg : (c₀.refresh now (Except.ok inputs)).snapshot.generatedAt = now := rfl
    have hso : (c₀.refresh now (Except.ok inputs)).snapshot.sourceOnline = true := rfl
    rw [hst, hsg, hso, hpi] at hstale
    refine ⟨s, hread, ?_, ?_⟩
    · rw [hgen', hon']
      rw [hstale]
      constructor
      · intro h
        rcases h with h | h | h
        · cases h
        · exact Or.inl h.2
        · cases h
      · intro h
        rcases h with h | h
        · exact Or.inr (Or.inl ⟨hNow, h⟩)
        · cases h
    · intro _ _ hold
      rw [hstale]
      exact Or.inr (Or.inl ⟨hNow, hold⟩)
  | error e =>
    by_cases hlg : c₀.hasLastGood = true
    · have hmain := refresh_error_of_hasLastGood c₀ now e hlg
      have hhas : (c₀.refresh now (Except.error e)).hasSnapshot = true := by rw [hmain]
      rcases snapshotRead_spec _ tRead hhas with
        ⟨s, hread, hgen, hon, herr, hdev, hfld, hrem, halt, hstale⟩
      have hso : (c₀.refresh now (Except.error e)).snapshot.sourceOnline = false := by
        rw [hmain]; rfl
      have hst : (c₀.refresh now (Except.error e)).snapshot.stale = true := by
        rw [hmain]; rfl
      refine ⟨s, hread, ?_, ?_⟩
      · have hstrue : s.stale = true := hstale.mpr (Or.inl hst)
        rw [hstrue, hon, hso]
        simp
      · intro inputs hco
        cases hco
    · have hlg' : c₀.hasLastGood = false := by
        cases h : c₀.hasLastGood
        · rfl
        · exact absurd h hlg
      have hmain : c₀.refresh now (Except.error e) =
          { c₀ with
            snapshot := { DashboardSnapshot.zero with
              generatedAt := now
              sourceOnline := false
              sourceError := some e
              alerts := [sourceUnreachableAlert]
              stale := true }
            hasSnapshot := true } := by
        simp [Collector.refresh, hlg']
      have hhas : (c₀.refresh now (Except.error e)).hasSnapshot = true := by rw [hmain]
      rcases snapshotRead_spec _ tRead hhas with
        ⟨s, hread, hgen, hon, herr, hdev, hfld, hrem, halt, hstale⟩
      have hso : (c₀.refresh now (Except.error e)).snapshot.sourceOnline = false := by
        rw [hmain]
      have hst : (c₀.refresh now (Except.error e)).snapshot.stale = true := by
        rw [hmain]
      refine ⟨s, hread, ?_, ?_⟩
      · have hstrue : s.stale = true := hstale.mpr (Or.inl hst)
        rw [hstrue, hon, hso]
        simp
      · intro inputs hco
        cases hco

theorem c2_witness :
    ∃ s, ((Collector.new 5).refresh 100 (Except.ok sampleInputs)).snapshotRead 10000
        = some s ∧
      (s.stale = true ↔
        (10000 - s.generatedAt > 2 * (Collector.new 5).pollInterval ∨
          s.sourceOnline = false)) ∧
      (∀ inputs, (Except.ok sampleInputs : Except String CollectInputs) = Except.ok inputs →
        10000 - 100 > 2 * (Collector.new 5).pollInterval → s.stale = true) :=
  c2_stale_recomputed_at_read (Collector.new 5) 100 10000 (Except.ok sampleInputs) (by decide)


/-- C3 (amended): the private rate counters (last sample time, last in/out
totals) are advanced to the cycle's sample in the first-sample branch and in
both delta branches (negative delta or not), but are left untouched in the
instantaneous-rate branch and in the non-positive elapsed-time branch. -/
theorem c3_rate_counter_state (c : Collector) (total : ConnectionTotals) (now : Int) :
    (total.bitsPerSecondIn > 0 ∨ total.bitsPerSecondOut > 0 →
      (c.currentRates total now).1 = c) ∧
    (¬(total.bitsPerSecondIn > 0 ∨ total.bitsPerSecondOut > 0) → c.lastRateAt = 0 →
      (c.currentRates total now).1 = { c with
        lastRateAt := now
        lastInTotal := total.inBytesTotal
        lastOutTotal := total.outBytesTotal }) ∧
    (¬(total.bitsPerSecondIn > 0 ∨ total.bitsPerSecondOut > 0) → c.lastRateAt ≠ 0 →
      ((now - c.lastRateAt : Int) : ℚ) / 1000000000 ≤ 0 →
      (c.currentRates total now).1 = c) ∧
    (¬(total.bitsPerSecondIn > 0 ∨ total.bitsPerSecondOut > 0) → c.lastRateAt ≠ 0 →
      ¬(((now - c.lastRateAt : Int) : ℚ) / 1000000000 ≤ 0) →
      (c.currentRates total now).1 = { c with
        lastRateAt := now
        lastInTotal := total.inBytesTotal
        lastOutTotal := total.outBytesTotal }) := by
  refine ⟨?_, ?_, ?_, ?_⟩
  · intro h
    simp [Collector.currentRates, h]
  · intro h h0
    simp [Collector.currentRates, h, h0]
  · intro h h0 hel
    simp only [Collector.currentRates, if_neg h, if_neg h0, if_pos hel]
  · intro h h0 hel
    simp only [Collector.currentRates, if_neg h, if_neg h0, if_neg hel]
    split <;> rfl

theorem c3_witness :
    (rateCollector₀.currentRates totalsDelta600 2000000000).1 = { rateCollector₀ with
      lastRateAt := 2000000000
      lastInTotal := totalsDelta600.inBytesTotal
      lastOutTotal := totalsDelta600.outBytesTotal } := by
  have h := (c3_rate_counter_state rateCollector₀ totalsDelta600 2000000000).2.2.2
  exact h (by norm_num [totalsDelta600]) (by decide)
    (by norm_num [rateCollector₀, Collector.new])

/-- C3 counterexample: in the instantaneous-rate branch the counters are not
updated, contrary to the claim that every branch updates them. -/
theorem c3_counterexample :
    totalsInstant.bitsPerSecondIn > 0 ∧
    ¬((rateCollector₀.currentRates totalsInstant 2000000000).1.lastRateAt = 2000000000 ∧
      (rateCollector₀.currentRates totalsInstant 2000000000).1.lastInTotal
        = totalsInstant.inBytesTotal ∧
      (rateCollector₀.currentRates totalsInstant 2000000000).1.lastOutTotal
        = totalsInstant.outBytesTotal) := by
  constructor
  · norm_num [totalsInstant]
  · intro hcl
    have h1 : (rateCollector₀.currentRates totalsInstant 2000000000).1 = rateCollector₀ := by
      simp [Collector.currentRates, totalsInstant]
    rw [h1] at hcl
    exact absurd hcl.1 (by decide)

/-- C4 (amended): a positive upstream instantaneous rate is preferred; a
first-ever sample, a non-positive elapsed time, or a negative counter delta
each yield the upstream-reported rate; otherwise each rate is the counter
delta divided by the elapsed seconds. -/
theorem c4_rate_computation (c : Collector) (total : ConnectionTotals) (now : Int) :
    (total.bitsPerSecondIn > 0 ∨ total.bitsPerSecondOut > 0 →
      (c.currentRates total now).2
        = (total.bitsPerSecondIn / 8, total.bitsPerSecondOut / 8)) ∧
    (¬(total.bitsPerSecondIn > 0 ∨ total.bitsPerSecondOut > 0) → c.lastRateAt = 0 →
      (c.currentRates total now).2
        = (total.bitsPerSecondIn / 8, total.bitsPerSecondOut / 8)) ∧
    (¬(total.bitsPerSecondIn > 0 ∨ total.bitsPerSecondOut > 0) → c.lastRateAt ≠ 0 →
      ((now - c.lastRateAt : Int) : ℚ) / 1000000000 ≤ 0 →
      (c.currentRates total now).2
        = (total.bitsPerSecondIn / 8, total.bitsPerSecondOut / 8)) ∧
    (¬(total.bitsPerSecondIn > 0 ∨ total.bitsPerSecondOut > 0) → c.lastRateAt ≠ 0 →
      ¬(((now - c.lastRateAt : Int) : ℚ) / 1000000000 ≤ 0) →
      (total.inBytesTotal - c.lastInTotal < 0 ∨ total.outBytesTotal - c.lastOutTotal < 0) →
      (c.currentRates total now).2
        = (total.bitsPerSecondIn / 8, total.bitsPerSecondOut / 8)) ∧
    (¬(total.bitsPerSecondIn > 0 ∨ total.bitsPerSecondOut > 0) → c.lastRateAt ≠ 0 →
      ¬(((now - c.lastRateAt : Int) : ℚ) / 1000000000 ≤ 0) →
      ¬(total.inBytesTotal - c.lastInTotal < 0 ∨ total.outBytesTotal - c.lastOutTotal < 0) →
      (c.currentRates total now).2
        = (((total.inBytesTotal - c.lastInTotal : Int) : ℚ)
              / (((now - c.lastRateAt : Int) : ℚ) / 1000000000),
           ((total.outBytesTotal - c.lastOutTotal : Int) : ℚ)
              / (((now - c.lastRateAt : Int) : ℚ) / 1000000000))) := by
  refine ⟨?_, ?_, ?_, ?_, ?_⟩
  · intro h
    simp only [Collector.currentRates, if_pos h]
  · intro h h0
    simp only [Collector.currentRates, if_neg h, if_pos h0]
  · intro h h0 hel
    simp only [Collector.currentRates, if_neg h, if_neg h0, if_pos hel]
  · intro h h0 hel hd
    simp only [Collector.currentRates, if_neg h, if_neg h0, if_neg hel, if_pos hd]
  · intro h h0 hel hd
    simp only [Collector.currentRates, if_neg h, if_neg h0, if_neg hel, if_neg hd]

/-- C4 witness: 600 new bytes each way over 100 ms derive to 6000 bytes/sec
in each direction. -/
theorem c4_witness :
    (rateCollector₀.currentRates totalsDelta600 1100000000).2 = ((6000 : ℚ), (6000 : ℚ)) := by
  have h := (c4_rate_computation rateCollector₀ totalsDelta600 1100000000).2.2.2.2
    (by norm_num [totalsDelta600]) (by decide)
    (by norm_num [rateCollector₀, Collector.new])
    (by norm_num [rateCollector₀, Collector.new, totalsDelta600])
  rw [h]
  norm_num [rateCollector₀, Collector.new, totalsDelta600]

/-- C4 counterexample: a negative — hence nonzero — upstream instantaneous
rate is not preferred; the delta-derived rate is returned instead. -/
theorem c4_counterexample :
    totalsNegRate.bitsPerSecondIn ≠ 0 ∧
    (rateCollector₀.currentRates totalsNegRate 2000000000).2.1
      ≠ totalsNegRate.bitsPerSecondIn / 8 := by
  constructor
  · norm_num [totalsNegRate]
  · have hni : ¬(totalsNegRate.bitsPerSecondIn > 0 ∨ totalsNegRate.bitsPerSecondOut > 0) := by
      norm_num [totalsNegRate]
    have h0 : ¬(rateCollector₀.lastRateAt = 0) := by decide
    have hel : ¬(((2000000000 - rateCollector₀.lastRateAt : Int) : ℚ) / 1000000000 ≤ 0) := by
      norm_num [rateCollector₀, Collector.new]
    have hd : ¬(totalsNegRate.inBytesTotal - rateCollector₀.lastInTotal < 0 ∨
        totalsNegRate.outBytesTotal - rateCollector₀.lastOutTotal < 0) := by
      norm_num [rateCollector₀, Collector.new, totalsNegRate]
    have h : (rateCollector₀.currentRates totalsNegRate 2000000000).2.1 = 800 := by
      simp only [Collector.currentRates, if_neg hni, if_neg h0, if_neg hel, if_neg hd]
      norm_num [rateCollector₀, Collector.new, totalsNegRate]
    rw [h]
    norm_num [totalsNegRate]


/-- C5: every folder of a successfully built snapshot takes its need totals
from the completion endpoint clamped at zero (hence always non-negative),
its global bytes as the max of the DB-status and completion values, and its
completion percentage exactly when the upstream value lies in [0, 100]
(otherwise absent). -/
theorem c5_completion_refinement (c : Collector) (inputs : CollectInputs) (now : Int)
    (f : FolderStatus) (hf : f ∈ (c.collect inputs now).2.folders) :
    0 ≤ f.needItems ∧ 0 ≤ f.needBytes ∧
    ∃ cf, cf ∈ inputs.cfg.folders ∧ f = buildFolder inputs cf ∧
      f.needItems = max (inputs.completion cf.id).needItems 0 ∧
      f.needBytes = max (inputs.completion cf.id).needBytes 0 ∧
      f.globalBytes
        = max (inputs.dbStatus cf.id).globalBytes (inputs.completion cf.id).globalBytes ∧
      f.completionPct = (if 0 ≤ (inputs.completion cf.id).completion ∧
          (inputs.completion cf.id).completion ≤ 100
        then some (inputs.completion cf.id).completion else none) := by
  rcases mem_collect_folders hf with ⟨cf, hcf, rfl⟩
  refine ⟨?_, ?_, cf, hcf, rfl, buildFolder_needItems inputs cf,
    buildFolder_needBytes inputs cf, buildFolder_globalBytes inputs cf, rfl⟩
  · rw [buildFolder_needItems]
    omega
  · rw [buildFolder_needBytes]
    omega

/-- C5 witness: the spec scenario — the completion endpoint wins with
`completion_pct = 8.1`, `need_bytes = 3072`, `need_items = 12`, and global
bytes take the max of the two sources. -/
theorem c5_witness :
    (buildFolder sampleInputs sampleFolderCfg).needItems = 12 ∧
    (buildFolder sampleInputs sampleFolderCfg).needBytes = 3072 ∧
    (buildFolder sampleInputs sampleFolderCfg).globalBytes = 4096 ∧
    (buildFolder sampleInputs sampleFolderCfg).completionPct = some ((81 : ℚ) / 10) := by
  have h := c5_completion_refinement (Collector.new 5) sampleInputs 7
    (buildFolder sampleInputs sampleFolderCfg) (List.mem_singleton.mpr rfl)
  rcases h with ⟨-, -, cf, hcf, -, hni, hnb, hgb, hcp⟩
  have hcfe : cf = sampleFolderCfg := List.mem_singleton.mp hcf
  subst hcfe
  refine ⟨?_, ?_, ?_, ?_⟩
  · rw [hni]
    decide
  · rw [hnb]
    decide
  · rw [hgb]
    decide
  · rw [hcp]
    rw [if_pos]
    · rfl
    · constructor <;> norm_num [sampleInputs]

/-- C6: if the very first poll fails (no last-known-good snapshot), the
subsequent read still returns a snapshot (availability), with empty device,
folder and remote data, `source_online = false`, `stale = true`, the error
recorded, and the critical `SOURCE_UNREACHABLE` alert as its only alert. -/
theorem c6_cold_start_failure (c₀ : Collector) (now tRead : Int) (e : String)
    (hNoGood : c₀.hasLastGood = false) :
    ∃ s, (c₀.refresh now (Except.error e)).snapshotRead tRead = some s ∧
      s.device = DeviceStatus.zero ∧ s.folders = [] ∧ s.remotes = [] ∧
      s.sourceOnline = false ∧ s.stale = true ∧ s.sourceError = some e ∧
      s.alerts = [sourceUnreachableAlert] ∧
      sourceUnreachableAlert.severity = "critical" ∧
      sourceUnreachableAlert.code = "SOURCE_UNREACHABLE" := by
  have hmain : c₀.refresh now (Except.error e) =
      { c₀ with
        snapshot := { DashboardSnapshot.zero with
          generatedAt := now
          sourceOnline := false
          sourceError := some e
          alerts := [sourceUnreachableAlert]
          stale := true }
        hasSnapshot := true } := by
    simp [Collector.refresh, hNoGood]
  rw [hmain, Collector.snapshotRead]
  simp only [DashboardSnapshot.zero, DeviceStatus.zero]
  split
  · simp_all [sourceUnreachableAlert]
  · split <;> simp_all [sourceUnreachableAlert]

theorem c6_witness :
    ∃ s, ((Collector.new 5).refresh 100 (Except.error "dial tcp: refused")).snapshotRead 101
        = some s ∧
      s.device = DeviceStatus.zero ∧ s.folders = [] ∧ s.remotes = [] ∧
      s.sourceOnline = false ∧ s.stale = true ∧
      s.sourceError = some "dial tcp: refused" ∧
      s.alerts = [sourceUnreachableAlert] ∧
      sourceUnreachableAlert.severity = "critical" ∧
      sourceUnreachableAlert.code = "SOURCE_UNREACHABLE" :=
  c6_cold_start_failure (Collector.new 5) 100 101 "dial tcp: refused" rfl

/-- C7: a published folder's state is the trimmed DB-status state, defaulting
to `unknown` when blank, and overridden to `paused` whenever the folder is
configured paused. -/
theorem c7_folder_state (c : Collector) (inputs : CollectInputs) (now : Int)
    (f : FolderStatus) (hf : f ∈ (c.collect inputs now).2.folders) :
    ∃ cf, cf ∈ inputs.cfg.folders ∧ f = buildFolder inputs cf ∧
      f.state = (if cf.paused then "paused"
        else if trimSpace (inputs.dbStatus cf.id).state = "" then "unknown"
        else trimSpace (inputs.dbStatus cf.id).state) ∧
      (cf.paused = true → f.state = "paused") := by
  rcases mem_collect_folders hf with ⟨cf, hcf, rfl⟩
  refine ⟨cf, hcf, rfl, rfl, ?_⟩
  intro hp
  show (if cf.paused then "paused"
    else if trimSpace (inputs.dbStatus cf.id).state = "" then "unknown"
    else trimSpace (inputs.dbStatus cf.id).state) = "paused"
  rw [if_pos hp]

/-- C7 witness: the spec scenario — a folder configured paused while DB
status reports `syncing` comes out as `paused`. -/
theorem c7_witness :
    trimSpace (sampleInputs.dbStatus sampleFolderCfg.id).state = "syncing" ∧
    sampleFolderCfg.paused = true ∧
    (buildFolder sampleInputs sampleFolderCfg).state = "paused" := by
  refine ⟨by decide, rfl, ?_⟩
  rcases c7_folder_state (Collector.new 5) sampleInputs 7
      (buildFolder sampleInputs sampleFolderCfg) (List.mem_singleton.mpr rfl)
    with ⟨cf, hcf, heq, hstate, hpause⟩
  have hcfe : cf = sampleFolderCfg := List.mem_singleton.mp hcf
  subst hcfe
  exact hpause rfl

/-- C8: the alert list of a successfully built snapshot is exactly the
critical `REMOTE_DISCONNECTED` alerts of the disconnected remotes, in remote
order, followed in folder order by a critical `FOLDER_ERROR` alert per
folder in error state, else a warn `FOLDER_OUT_OF_SYNC` alert per folder
with outstanding need ( `FOLDER_ERROR` excludes the out-of-sync alert for
the same folder). -/
theorem c8_alert_derivation (c : Collector) (inputs : CollectInputs) (now : Int) :
    (c.collect inputs now).2.alerts =
      ((c.collect inputs now).2.remotes.filter (fun r => !r.connected)).map
          remoteDisconnectedAlert
        ++ (c.collect inputs now).2.folders.filterMap folderAlertOf ∧
    (∀ r : RemoteDeviceStatus, (remoteDisconnectedAlert r).severity = "critical" ∧
      (remoteDisconnectedAlert r).code = "REMOTE_DISCONNECTED") ∧
    (∀ f : FolderStatus, (folderErrorAlert f).severity = "critical" ∧
      (folderErrorAlert f).code = "FOLDER_ERROR" ∧
      (folderOutOfSyncAlert f).severity = "warn" ∧
      (folderOutOfSyncAlert f).code = "FOLDER_OUT_OF_SYNC") ∧
    (∀ f : FolderStatus, f.state = "error" → folderAlertOf f = some (folderErrorAlert f)) ∧
    (∀ f : FolderStatus, f.state ≠ "error" → (f.needItems > 0 ∨ f.needBytes > 0) →
      folderAlertOf f = some (folderOutOfSyncAlert f)) ∧
    (∀ f : FolderStatus, f.state ≠ "error" → ¬(f.needItems > 0 ∨ f.needBytes > 0) →
      folderAlertOf f = none) := by
  refine ⟨?_, fun r => ⟨rfl, rfl⟩, fun f => ⟨rfl, rfl, rfl, rfl⟩, ?_, ?_, ?_⟩
  · exact deriveAlerts_eq _ _
  · intro f he
    rw [folderAlertOf, if_pos he]
  · intro f he hn
    rw [folderAlertOf, if_neg he, if_pos hn]
  · intro f he hn
    rw [folderAlertOf, if_neg he, if_neg hn]

theorem c8_witness :
    ((Collector.new 5).collect sampleInputs 7).2.alerts =
      (((Collector.new 5).collect sampleInputs 7).2.remotes.filter
          (fun r => !r.connected)).map remoteDisconnectedAlert
        ++ ((Collector.new 5).collect sampleInputs 7).2.folders.filterMap folderAlertOf :=
  (c8_alert_derivation (Collector.new 5) sampleInputs 7).1


/-- C9 (amended): published folders are sorted by label and remotes by name;
and whenever the folder labels (resp. remote names) are pairwise distinct,
the published sequences do not depend on the upstream ordering of the
configuration lists. -/
theorem c9_sorted_and_order_independent (c c' : Collector) (inputs : CollectInputs)
    (now now' : Int) (folders₂ : List ConfigFolder) (devices₂ : List ConfigDevice)
    (hpf : inputs.cfg.folders.Perm folders₂)
    (hpd : inputs.cfg.devices.Perm devices₂) :
    (c.collect inputs now).2.folders.Pairwise (fun a b => a.label ≤ b.label) ∧
    (c.collect inputs now).2.remotes.Pairwise (fun a b => a.name ≤ b.name) ∧
    (((c.collect inputs now).2.folders.map (fun f => f.label)).Nodup →
      (c'.collect { inputs with
          cfg := { devices := devices₂, folders := folders₂ } } now').2.folders
        = (c.collect inputs now).2.folders) ∧
    (((c.collect inputs now).2.remotes.map (fun r => r.name)).Nodup →
      (c'.collect { inputs with
          cfg := { devices := devices₂, folders := folders₂ } } now').2.remotes
        = (c.collect inputs now).2.remotes) := by
  have htotF : ∀ a b : FolderStatus,
      goStrLe a.label b.label = true ∨ goStrLe b.label a.label = true :=
    fun a b => goStrLe_total a.label b.label
  have htransF : ∀ a b c : FolderStatus, goStrLe a.label b.label = true →
      goStrLe b.label c.label = true → goStrLe a.label c.label = true :=
    fun a b c => goStrLe_trans a.label b.label c.label
  have htotR : ∀ a b : RemoteDeviceStatus,
      goStrLe a.name b.name = true ∨ goStrLe b.name a.name = true :=
    fun a b => goStrLe_total a.name b.name
  have htransR : ∀ a b c : RemoteDeviceStatus, goStrLe a.name b.name = true →
      goStrLe b.name c.name = true → goStrLe a.name c.name = true :=
    fun a b c => goStrLe_trans a.name b.name c.name
  refine ⟨?_, ?_, ?_, ?_⟩
  · rw [collect_folders_eq]
    exact (sortSlice_pairwise _ htotF htransF _).imp fun h => (goStrLe_iff _ _).mp h
  · rw [collect_remotes_eq]
    exact (sortSlice_pairwise _ htotR htransR _).imp fun h => (goStrLe_iff _ _).mp h
  · intro hnd
    rw [collect_folders_eq] at hnd ⊢
    rw [collect_folders_cfg]
    have hperm : (sortSlice (fun a b => goStrLe a.label b.label)
        (folders₂.map (buildFolder inputs))).Perm
        (sortSlice (fun a b => goStrLe a.label b.label)
          (inputs.cfg.folders.map (buildFolder inputs))) :=
      (sortSlice_perm _ _).trans ((hpf.map (buildFolder inputs)).symm.trans
        (sortSlice_perm _ _).symm)
    exact eq_of_perm_of_sorted_key (fun f => f.label) _ _ hperm
      ((sortSlice_pairwise _ htotF htransF _).imp fun h => (goStrLe_iff _ _).mp h)
      ((sortSlice_pairwise _ htotF htransF _).imp fun h => (goStrLe_iff _ _).mp h)
      ((hperm.map (fun f => f.label)).nodup_iff.mpr hnd)
  · intro hnd
    rw [collect_remotes_eq] at hnd ⊢
    rw [collect_remotes_cfg]
    have hperm : (sortSlice (fun a b => goStrLe a.name b.name)
        ((devices₂.filter fun d => d.deviceID != inputs.status.myID).map
          (buildRemote inputs))).Perm
        (sortSlice (fun a b => goStrLe a.name b.name)
          ((inputs.cfg.devices.filter fun d => d.deviceID != inputs.status.myID).map
            (buildRemote inputs))) :=
      (sortSlice_perm _ _).trans
        (((hpd.filter (fun d => d.deviceID != inputs.status.myID)).map
            (buildRemote inputs)).symm.trans (sortSlice_perm _ _).symm)
    exact eq_of_perm_of_sorted_key (fun r => r.name) _ _ hperm
      ((sortSlice_pairwise _ htotR htransR _).imp fun h => (goStrLe_iff _ _).mp h)
      ((sortSlice_pairwise _ htotR htransR _).imp fun h => (goStrLe_iff _ _).mp h)
      ((hperm.map (fun r => r.name)).nodup_iff.mpr hnd)

/-- C9 witness: with distinct labels `y`, `x`, both input orders produce the
same (sorted) folder sequence. -/
theorem c9_witness :
    ((Collector.new 5).collect { distinctInputs₁ with
        cfg := { devices := [], folders := [cfgFolderX, cfgFolderY] } } 8).2.folders
      = ((Collector.new 5).collect distinctInputs₁ 7).2.folders := by
  have h := c9_sorted_and_order_independent (Collector.new 5) (Collector.new 5)
    distinctInputs₁ 7 8 [cfgFolderX, cfgFolderY] []
    (List.Perm.swap cfgFolderX cfgFolderY []) (List.Perm.refl [])
  exact h.2.2.1 (by decide)

/-- C9 counterexample: two folders sharing the label `x`; swapping their
order in the configuration changes the published folder sequence, so the
output is not independent of upstream ordering as the claim states. -/
theorem c9_counterexample :
    dupLabelInputs₁.cfg.folders.Perm dupLabelInputs₂.cfg.folders ∧
    dupLabelInputs₁.cfg.devices = dupLabelInputs₂.cfg.devices ∧
    ((Collector.new 5).collect dupLabelInputs₁ 0).2.folders
      ≠ ((Collector.new 5).collect dupLabelInputs₂ 0).2.folders := by
  refine ⟨List.Perm.swap cfgFolderB cfgFolderA [], rfl, ?_⟩
  decide

/-- C10: after a success followed by any nonempty run of failed polls, the
published snapshot is the degraded copy of the untouched last-known-good
snapshot: the `SOURCE_UNREACHABLE` alert sits at index 0 and occurs exactly
once — alerts do not accumulate across repeated failures. -/
theorem c10_single_unreachable_alert (c₀ : Collector) (inputs : CollectInputs) (t₁ : Int)
    (fails : List (Int × String)) (hne : fails ≠ []) :
    ((c₀.refresh t₁ (Except.ok inputs)).applyFailures fails).lastGood
        = (c₀.refresh t₁ (Except.ok inputs)).lastGood ∧
    (∃ e, ((c₀.refresh t₁ (Except.ok inputs)).applyFailures fails).snapshot
        = degradedFrom (c₀.refresh t₁ (Except.ok inputs)).lastGood e) ∧
    ((c₀.refresh t₁ (Except.ok inputs)).applyFailures fails).snapshot.alerts.head?
        = some sourceUnreachableAlert ∧
    ((c₀.refresh t₁ (Except.ok inputs)).applyFailures fails).snapshot.alerts.countP
        (fun a => a.code == "SOURCE_UNREACHABLE") = 1 := by
  set c₁ := c₀.refresh t₁ (Except.ok inputs) with hc₁
  have hlg : c₁.hasLastGood = true := rfl
  rcases applyFailures_spec fails c₁ hlg with ⟨h1, h2, h3, h4⟩
  rcases h4 hne with ⟨e, hsnap, hhas⟩
  have halerts : c₁.lastGood.alerts
      = deriveAlerts ((c₀.collect inputs t₁).2.remotes) ((c₀.collect inputs t₁).2.folders) :=
    rfl
  refine ⟨h2, ⟨e, hsnap⟩, ?_, ?_⟩
  · rw [hsnap]
    rfl
  · rw [hsnap]
    show ((sourceUnreachableAlert :: c₁.lastGood.alerts).countP
      (fun a => a.code == "SOURCE_UNREACHABLE")) = 1
    rw [List.countP_cons, halerts, deriveAlerts_no_unreachable]
    decide

theorem c10_witness :
    (((Collector.new 5).refresh 100 (Except.ok sampleInputs)).applyFailures
        [(200, "boom")]).lastGood
      = ((Collector.new 5).refresh 100 (Except.ok sampleInputs)).lastGood ∧
    (∃ e, (((Collector.new 5).refresh 100 (Except.ok sampleInputs)).applyFailures
        [(200, "boom")]).snapshot
      = degradedFrom ((Collector.new 5).refresh 100 (Except.ok sampleInputs)).lastGood e) ∧
    (((Collector.new 5).refresh 100 (Except.ok sampleInputs)).applyFailures
        [(200, "boom")]).snapshot.alerts.head? = some sourceUnreachableAlert ∧
    (((Collector.new 5).refresh 100 (Except.ok sampleInputs)).applyFailures
        [(200, "boom")]).snapshot.alerts.countP
        (fun a => a.code == "SOURCE_UNREACHABLE") = 1 :=
  c10_single_unreachable_alert (Collector.new 5) sampleInputs 100 [(200, "boom")]
    (List.cons_ne_nil _ _)

end SyncDash
